import Mathlib

/-!
Shallow embedding of `src/streamlit_app.py` (DWD hourly air-temperature
analysis app) and verification of the frozen claims about its spec.

The program downloads a zipped CSV, parses it into a time series
(`process_data`), builds two exceedance pivot tables
(`create_pivot_tables`), writes an Excel workbook with two summary sheets,
one detail sheet per populated (year, month) (`save_monthly_data`),
conditional highlighting, column widths, and two chart images (`main`).

Temperatures are modelled as rationals: every comparison the program makes
is `value >= 27` on decimal data with one fractional digit, which is exact
in both binary floating point and ℚ.  Timestamps are modelled as the
10-digit numbers the DWD `MESS_DATUM` column contains.
-/

namespace Wetter

/-- Gregorian leap-year test, as used by `datetime`. -/
def isLeapYear (y : Nat) : Bool :=
  y % 4 == 0 && (y % 100 != 0 || y % 400 == 0)

/-- Days in a month of a given year, as used by `datetime`. -/
def daysInMonth (y m : Nat) : Nat :=
  if m == 2 then (if isLeapYear y then 29 else 28)
  else if m == 4 || m == 6 || m == 9 || m == 11 then 30
  else 31

/-- A parsed `MESS_DATUM` value: calendar date-time at hour resolution
(`pd.to_datetime(..., format='%Y%m%d%H')`, line 34). -/
structure Timestamp where
  year : Nat
  month : Nat
  day : Nat
  hour : Nat
deriving DecidableEq, Repr

/-- A calendar day, the value of the derived `Tag` column (line 37). -/
structure Date where
  year : Nat
  month : Nat
  day : Nat
deriving DecidableEq, Repr

/-- Embedding of `pd.to_datetime(ts, format='%Y%m%d%H')` on a 10-digit
`MESS_DATUM` field (line 34): split into year/month/day/hour and validate.
Validity is the calendar validity `strptime` enforces (month 1-12, day
within the month, hour 0-23) together with the `pandas.Timestamp`
nanosecond range, which at hour granularity is exactly
1677-09-21 01h .. 2262-04-11 23h, i.e. `1677092101 ≤ n ≤ 2262041123`
(digit-aligned, so the numeric order is the chronological order).  Fields
shorter than the 10 digits the DWD format prescribes are outside the
modelled domain. -/
def parseTimestamp (n : Nat) : Option Timestamp :=
  let y := n / 1000000
  let m := n / 10000 % 100
  let d := n / 100 % 100
  let h := n % 100
  if 1 ≤ m ∧ m ≤ 12 ∧ 1 ≤ d ∧ d ≤ daysInMonth y m ∧ h ≤ 23 ∧
      1677092101 ≤ n ∧ n ≤ 2262041123 then
    some ⟨y, m, d, h⟩
  else
    none

/-- One raw CSV record: the two columns `process_data` keeps
(`MESS_DATUM`, `TT_TU`, line 32). -/
structure RawRow where
  mess_datum : Nat
  tt_tu : ℚ
deriving DecidableEq, Repr

/-- One row of the processed frame: `Zeitstempel` and `Wert`
(lines 33-34).  The derived columns `Jahr`, `Monat`, `Tag`, `Uhrzeit`
(lines 35-38) are the projections below, so they are consistent with the
timestamp by construction, exactly as in the source. -/
structure Obs where
  zeitstempel : Timestamp
  wert : ℚ
deriving DecidableEq, Repr

/-- Derived column `Jahr` (line 35). -/
def Obs.jahr (o : Obs) : Nat := o.zeitstempel.year

/-- Derived column `Monat` (line 36). -/
def Obs.monat (o : Obs) : Nat := o.zeitstempel.month

/-- Derived column `Tag` (line 37). -/
def Obs.tag (o : Obs) : Date :=
  ⟨o.zeitstempel.year, o.zeitstempel.month, o.zeitstempel.day⟩

/-- Derived column `Uhrzeit` (line 38), at hour resolution. -/
def Obs.uhrzeit (o : Obs) : Nat := o.zeitstempel.hour

/-- The error `pd.to_datetime` raises on a malformed element, which names
the offending value and its row position. -/
def malformedMsg (i t : Nat) : String :=
  s!"time data {t} does not match format %Y%m%d%H, at position {i}"

/-- Row-by-row conversion, carrying the position of the current row.
`pd.to_datetime` converts the column in order and raises at the first
element that fails. -/
def processFrom (i : Nat) : List RawRow → Except String (List Obs)
  | [] => .ok []
  | r :: rs =>
    match parseTimestamp r.mess_datum with
    | none => .error (malformedMsg i r.mess_datum)
    | some t =>
      match processFrom (i + 1) rs with
      | .error e => .error e
      | .ok l => .ok (⟨t, r.tt_tu⟩ :: l)

/-- Embedding of `process_data` (lines 30-39): parse every timestamp,
keep the input row order; an unparseable timestamp raises. -/
def process_data (rows : List RawRow) : Except String (List Obs) :=
  processFrom 0 rows

/-- `df[df['Wert'] >= 27]` (lines 43, 49): the rows meeting the
threshold, in input order. -/
def exceedRows (df : List Obs) : List Obs :=
  df.filter (fun o => decide ((27 : ℚ) ≤ o.wert))

/-- The fixed month axis `range(1, 13)` used by `.reindex` (lines 46, 56). -/
def monthsL : List Nat := [1, 2, 3, 4, 5, 6, 7, 8, 9, 10, 11, 12]

/-- The fixed month labels assigned to the pivot columns (lines 47, 57)
and used for sheet names (lines 63-66). -/
def monthNamesL : List String :=
  ["Jan", "Feb", "Mrz", "Apr", "Mai", "Jun",
   "Jul", "Aug", "Sep", "Okt", "Nov", "Dez"]

/-- Label of month `m` (1-based). -/
def monthName (m : Nat) : String := monthNamesL.getD (m - 1) ""

/-- First-occurrence deduplication, the semantics of `pandas` group keys
and `.unique()`. -/
def uniqueFirst {α : Type} [DecidableEq α] : List α → List α
  | [] => []
  | x :: xs => x :: (uniqueFirst xs).filter (fun a => a != x)

/-- Ascending sort on naturals; `pivot_table` sorts its index. -/
def sortNat (l : List Nat) : List Nat := List.insertionSort (· ≤ ·) l

/-- Index (row set) of the hours pivot: the years of the threshold-meeting
rows, sorted ascending, each once (`pivot_table(index='Jahr', ...)`,
lines 43-46). -/
def pivotIndexHours (df : List Obs) : List Nat :=
  sortNat (uniqueFirst ((exceedRows df).map Obs.jahr))

/-- Embedding of `pivot_hours` (lines 43-47): for every year row, the
count of threshold-meeting observations per month, reindexed to all 12
months with fill value 0 (`aggfunc='count'` together with
`reindex(columns=range(1, 13), fill_value=0)` amount to a plain count,
which is 0 for a month with no rows). -/
def pivot_hours (df : List Obs) : List (Nat × List Nat) :=
  (pivotIndexHours df).map (fun y =>
    (y, monthsL.map (fun m =>
      ((exceedRows df).filter (fun o => o.jahr == y && o.monat == m)).length)))

/-- The day keys of `df_days` (line 49): the distinct `Tag` values of the
threshold-meeting rows (`groupby('Tag').size()`; the sizes are irrelevant
downstream because `pivot_days` re-counts rows, and the key order is
irrelevant because only counts and the year set are consumed). -/
def days_frame (df : List Obs) : List Date :=
  uniqueFirst ((exceedRows df).map Obs.tag)

/-- Index of the days pivot: the years of `df_days` (lines 50, 53),
sorted ascending, each once. -/
def pivotIndexDays (df : List Obs) : List Nat :=
  sortNat (uniqueFirst ((days_frame df).map Date.year))

/-- Embedding of `pivot_days` (lines 53-57): `aggfunc='count'` over
`df_days` counts the day rows per (year, month), i.e. the number of
distinct exceedance days, reindexed to all 12 months with fill 0. -/
def pivot_days (df : List Obs) : List (Nat × List Nat) :=
  (pivotIndexDays df).map (fun y =>
    (y, monthsL.map (fun m =>
      ((days_frame df).filter (fun d => d.year == y && d.month == m)).length)))

/-- Read one cell of a pivot table: find the row of year `y` and take the
entry of month `m` (1-based). -/
def lookupPivot (t : List (Nat × List Nat)) (y m : Nat) : Option Nat :=
  (t.find? (fun r => r.1 == y)).bind (fun r => r.2[m - 1]?)

/-- Spec-side count for the Hour variant: the number of observations in
year `y`, month `m` whose value meets the threshold. -/
def hourExceedCount (df : List Obs) (y m : Nat) : Nat :=
  (df.filter (fun o => o.jahr == y && o.monat == m && decide ((27 : ℚ) ≤ o.wert))).length

/-- Spec-side count for the Day variant: the number of distinct calendar
days in year `y`, month `m` having at least one threshold-meeting
observation. -/
def dayExceedCount (df : List Obs) (y m : Nat) : Nat :=
  (uniqueFirst (((exceedRows df).filter
    (fun o => o.jahr == y && o.monat == m)).map Obs.tag)).length

end Wetter

namespace Wetter

/-- Zero-pad a number to two digits, as `strftime` and `datetime.time`
printing do. -/
def pad2 (n : Nat) : String :=
  if n < 10 then "0" ++ toString n else toString n

/-- Embedding of `.dt.strftime('%d.%m.%Y')` (line 77); years in the
parseable range have four digits. -/
def formatDate (d : Date) : String :=
  pad2 d.day ++ "." ++ pad2 d.month ++ "." ++ toString d.year

/-- Detail sheet name `f"{year}_{month_name}"` (line 74). -/
def sheetName (y m : Nat) : String :=
  toString y ++ "_" ++ monthName m

/-- One data row of a monthly detail sheet after the renames and the date
formatting (lines 72-77): columns `Datum`, `Uhrzeit`, `Temperatur`. -/
structure SheetRow where
  datum : String
  uhrzeit : Nat
  temperatur : ℚ
deriving DecidableEq, Repr

/-- A written monthly detail sheet. -/
structure MonthSheet where
  name : String
  rows : List SheetRow
deriving DecidableEq, Repr

/-- Header row of every monthly detail sheet (after the renames of
line 75, written by `to_excel`, line 79). -/
def monthlyHeader : List String := ["Datum", "Uhrzeit", "Temperatur"]

/-- Build one sheet row from an observation (column selection of line 72
plus the formatting of line 77). -/
def mkSheetRow (o : Obs) : SheetRow :=
  ⟨formatDate o.tag, o.uhrzeit, o.wert⟩

/-- `df[(df['Jahr'] == year) & (df['Monat'] == month_num)]` (line 72):
the observations of one (year, month), in input order. -/
def periodRows (df : List Obs) (y m : Nat) : List Obs :=
  df.filter (fun o => o.jahr == y && o.monat == m)

/-- One iteration of the inner loop of `save_monthly_data`
(lines 71-79): select the period's rows; if the period is empty nothing is
written, otherwise the sheet `f"{year}_{month_name}"` with the formatted
rows is. -/
def sheetFor (df : List Obs) (y m : Nat) : Option ((Nat × Nat) × MonthSheet) :=
  let md := periodRows df y m
  if md.isEmpty then none
  else some ((y, m), ⟨sheetName y m, md.map mkSheetRow⟩)

/-- Embedding of the sheet-writing loop of `save_monthly_data`
(lines 70-79): years in first-appearance order (`df['Jahr'].unique()`),
months 1..12, skipping empty periods.  Each written sheet is recorded
together with its (year, month) loop index. -/
def save_monthly_data (df : List Obs) : List ((Nat × Nat) × MonthSheet) :=
  (uniqueFirst (df.map Obs.jahr)).flatMap (fun y =>
    monthsL.filterMap (sheetFor df y))

/-- The highlight test of line 89, `cell.value and cell.value >= 27`:
Python truthiness (`0.0` is falsy) conjoined with the threshold test. -/
def highlightTest (r : SheetRow) : Bool :=
  (r.temperatur != 0) && decide ((27 : ℚ) ≤ r.temperatur)

/-- Highlighted cells of one detail sheet (lines 87-90): the iteration
runs over column 3 only (`min_col=3, max_col=3`) and over the data rows
only (`min_row=2`); data row `i` (0-based) sits in worksheet row `i + 2`.
Each highlighted cell is reported as (sheet name, row, column). -/
def sheetHighlights (s : MonthSheet) : List (String × Nat × Nat) :=
  s.rows.enum.filterMap (fun p =>
    if highlightTest p.2 then some (s.name, p.1 + 2, 3) else none)

/-- All highlighted cells of the workbook.  `main` (lines 128-141) writes
the two summary sheets with plain `to_excel` and never applies a fill to
them; the only `PatternFill` use in the program is lines 87-90 inside
`save_monthly_data`, so exactly the detail sheets contribute. -/
def workbookHighlights (df : List Obs) : List (String × Nat × Nat) :=
  (save_monthly_data df).flatMap (fun ks => sheetHighlights ks.2)

/-- `str(datetime.time(h, 0))` for the `Uhrzeit` cells: `"HH:00:00"`. -/
def timeStr (h : Nat) : String := pad2 h ++ ":00:00"

/-- Python decimal rendering of a temperature cell under `astype(str)`
(line 84).  The source data carries one decimal digit (0.1 °C
granularity); for such values `str(float)` prints the sign, the integer
part, and the fractional digit, with `.0` kept for whole numbers.  Other
denominators are outside the modelled domain and fall back to the ℚ
printer. -/
def ratStr (q : ℚ) : String :=
  let sign := if q < 0 then "-" else ""
  let a := q.num.natAbs
  if q.den = 1 then sign ++ toString a ++ ".0"
  else if q.den = 2 then sign ++ toString (a / 2) ++ "." ++ toString (a % 2 * 5)
  else if q.den = 5 then sign ++ toString (a / 5) ++ "." ++ toString (a % 5 * 2)
  else if q.den = 10 then sign ++ toString (a / 10) ++ "." ++ toString (a % 10)
  else toString q

/-- Stringification of cell `c` (0-based) of a sheet row, as
`month_data.iloc[:, col].astype(str)` produces it (line 84): the already
formatted date string, the time rendering, the float rendering. -/
def cellStr (c : Nat) (r : SheetRow) : String :=
  match c with
  | 0 => r.datum
  | 1 => timeStr r.uhrzeit
  | _ => ratStr r.temperatur

/-- Maximum of a list of naturals (`Series.max()` over the nonnegative
lengths involved here). -/
def maxNat (l : List Nat) : Nat := l.foldl max 0

/-- Column width set by line 84:
`max(cell string lengths, header length) + 2`. -/
def widthOfCol (s : MonthSheet) (c : Nat) : Nat :=
  max (maxNat (s.rows.map (fun r => (cellStr c r).length)))
    ((monthlyHeader.getD c "").length) + 2

/-- All explicit column-width assignments of the run.  The only
`column_dimensions` writes in the program are lines 83-85 inside
`save_monthly_data`, so only detail sheets receive widths; `main` writes
the two summary sheets without any sizing. -/
def columnWidths (df : List Obs) : List (String × List Nat) :=
  (save_monthly_data df).map (fun ks =>
    (ks.2.name, (List.range 3).map (widthOfCol ks.2)))

/-- Summary sheet name of line 130. -/
def summaryHours : String := "Überschreitungen (Stunden)"

/-- Summary sheet name of line 131. -/
def summaryDays : String := "Überschreitungen (Tage)"

/-- Sheet creation order of a successful run (lines 130-132): the hours
summary, the days summary, then the detail sheets in the order
`save_monthly_data` writes them. -/
def sheetOrder (df : List Obs) : List String :=
  summaryHours :: summaryDays :: (save_monthly_data df).map (fun ks => ks.2.name)

/-- The workbook file at `excel_path`, at the granularity this
development needs: its sheet list and whether the two chart images were
embedded before the save. -/
structure Workbook where
  sheets : List String
  imagesEmbedded : Bool
deriving DecidableEq, Repr

/-- Observable outcome of one `main` run (lines 119-144):
what file the run leaves at `excel_path`, what (if anything) is offered
through the download button, and whether an error is surfaced (either a
`st.error` call or the exception display of an uncaught exception). -/
structure RunState where
  fileOnDisk : Option Workbook
  exposed : Option Workbook
  errorShown : Bool
  succeeded : Bool
deriving DecidableEq, Repr

/-- Embedding of the `main` pipeline (lines 119-144).
`download` is the Archive Source collaborator's result (`none` models
retrieval failure, line 121); `renderOk` is the Plotting Engine
collaborator's oracle, standing for any exception raised inside the
`with pd.ExcelWriter(...)` block after the sheets are written (chart
rendering, line 133, is the external call there).
Key modelled fact: `pd.ExcelWriter.__exit__` calls `close()` (which
saves the workbook) unconditionally, also when the block is left by an
exception — so a render failure still leaves the partial workbook
(sheets written, no images) persisted at `excel_path`, while the
`st.success` and `st.download_button` lines (142-144) after the block
are not reached. -/
def runPipeline (download : Option (List RawRow)) (renderOk : Bool) : RunState :=
  match download with
  | none => ⟨none, none, true, false⟩
  | some rows =>
    match process_data rows with
    | .error _ => ⟨none, none, true, false⟩
    | .ok df =>
      if renderOk then
        let wb : Workbook := ⟨sheetOrder df, true⟩
        ⟨some wb, some wb, false, true⟩
      else
        ⟨some ⟨sheetOrder df, false⟩, none, true, false⟩

/-- The rational 10.5 (= 21/2), written as an explicit reduced fraction
so that the kernel can evaluate with it. -/
def tempLow : ℚ := ⟨21, 2, by decide, by decide⟩

/-- The spec scenario's two-row input, with the second timestamp as the
spec wrote it (`2023010127`); values 10.5 and 27.0. -/
def badRows : List RawRow := [⟨2023010100, tempLow⟩, ⟨2023010127, 27⟩]

/-- The scenario input with the second timestamp's hour amended to a
valid hour of the same day (`2023010123`). -/
def demoRows : List RawRow := [⟨2023010100, tempLow⟩, ⟨2023010123, 27⟩]

/-- The parsed time series of `demoRows`. -/
def demoObs : List Obs := [⟨⟨2023, 1, 1, 0⟩, tempLow⟩, ⟨⟨2023, 1, 1, 23⟩, 27⟩]

/-- A second time series used by witnesses: two observations on the same
calendar day, both meeting the threshold. -/
def twoSameDay : List Obs :=
  [⟨⟨2023, 7, 5, 10⟩, 28⟩, ⟨⟨2023, 7, 5, 14⟩, 30⟩]

/-- Numeric key of a timestamp, `YYYYMMDDHH` re-assembled; for timestamps
within the field bounds, numeric order is chronological order. -/
def tsNum (t : Timestamp) : Nat :=
  t.year * 1000000 + t.month * 10000 + t.day * 100 + t.hour

/-- Field bounds every parsed timestamp satisfies. -/
def ValidTs (t : Timestamp) : Prop :=
  1 ≤ t.month ∧ t.month ≤ 12 ∧ 1 ≤ t.day ∧ t.day ≤ 31 ∧ t.hour ≤ 23

instance decidableValidTs (t : Timestamp) : Decidable (ValidTs t) := by
  unfold ValidTs
  infer_instance

/-- Strict lexicographic order on the (year, month) sheet keys. -/
def pairLt (a b : Nat × Nat) : Prop :=
  a.1 < b.1 ∨ (a.1 = b.1 ∧ a.2 < b.2)

/-- Spec-side formulation of the width rule of line 84: the maximum of
the header length and all cell string lengths of the column, plus 2. -/
def specColWidth (s : MonthSheet) (c : Nat) : Nat :=
  (s.rows.map (fun r => (cellStr c r).length)).foldr max
    ((monthlyHeader.getD c "").length) + 2

/-! ### Helper lemmas about the combinators of the embedding -/

/-- The demo value is the decimal 10.5 of the spec scenario. -/
theorem tempLow_eq_ten_point_five : tempLow = 10.5 := by
  norm_num [tempLow, Rat.mk'_eq_divInt, Rat.divInt_eq_div]

theorem mem_uniqueFirst {α : Type} [DecidableEq α] {a : α} {l : List α} :
    a ∈ uniqueFirst l ↔ a ∈ l := by
  induction l with
  | nil => simp [uniqueFirst]
  | cons x xs ih =>
    simp only [uniqueFirst, List.mem_cons, List.mem_filter, bne_iff_ne, ih]
    by_cases hx : a = x <;> simp [hx]

theorem nodup_uniqueFirst {α : Type} [DecidableEq α] (l : List α) :
    (uniqueFirst l).Nodup := by
  induction l with
  | nil => simp [uniqueFirst]
  | cons x xs ih =>
    simp only [uniqueFirst, List.nodup_cons]
    refine ⟨fun hmem => ?_, ih.filter _⟩
    have := (List.mem_filter.1 hmem).2
    simp at this

theorem uniqueFirst_sublist {α : Type} [DecidableEq α] (l : List α) :
    (uniqueFirst l).Sublist l := by
  induction l with
  | nil => exact .refl _
  | cons x xs ih =>
    exact ((List.filter_sublist _).trans ih).cons₂ x

theorem uniqueFirst_filter {α : Type} [DecidableEq α] (p : α → Bool) (l : List α) :
    uniqueFirst (l.filter p) = (uniqueFirst l).filter p := by
  induction l with
  | nil => rfl
  | cons x xs ih =>
    by_cases hp : p x = true
    · rw [List.filter_cons_of_pos hp]
      show x :: (uniqueFirst (xs.filter p)).filter (fun a => a != x) = _
      rw [ih]
      show _ = (x :: (uniqueFirst xs).filter (fun a => a != x)).filter p
      rw [List.filter_cons_of_pos hp, List.filter_filter, List.filter_filter]
      apply congrArg
      apply List.filter_congr
      intro a _
      rw [Bool.and_comm]
    · rw [List.filter_cons_of_neg hp, ih]
      show _ = (x :: (uniqueFirst xs).filter (fun a => a != x)).filter p
      rw [List.filter_cons_of_neg hp, List.filter_filter]
      apply List.filter_congr
      intro a _
      cases pa : p a
      · simp
      · have hax : (a != x) = true := by
          refine bne_iff_ne.2 (fun h => ?_)
          subst h
          exact hp pa
        simp [hax, pa]

theorem sorted_sortNat (l : List Nat) : List.Sorted (· ≤ ·) (sortNat l) :=
  List.sorted_insertionSort _ l

theorem perm_sortNat (l : List Nat) : List.Perm (sortNat l) l :=
  List.perm_insertionSort _ l

theorem mem_sortNat {a : Nat} {l : List Nat} : a ∈ sortNat l ↔ a ∈ l :=
  (perm_sortNat l).mem_iff

theorem sortedLt_sortNat {l : List Nat} (h : l.Nodup) :
    List.Sorted (· < ·) (sortNat l) :=
  (sorted_sortNat l).lt_of_le ((perm_sortNat l).nodup_iff.2 h)

theorem find?_map_pair {α : Type} {f : Nat → α} {y : Nat} {l : List Nat}
    (hy : y ∈ l) :
    (l.map (fun a => (a, f a))).find? (fun r => r.1 == y) = some (y, f y) := by
  induction l with
  | nil => cases hy
  | cons a as ih =>
    rw [List.map_cons, List.find?_cons]
    by_cases ha : a = y
    · subst ha
      simp
    · have hne : ((a, f a).1 == y) = false := by simp [ha]
      rw [hne]
      exact ih (by
        rcases List.mem_cons.1 hy with h | h
        · exact absurd h.symm ha
        · exact h)

theorem mem_monthsL {m : Nat} : m ∈ monthsL ↔ 1 ≤ m ∧ m ≤ 12 := by
  simp only [monthsL, List.mem_cons, List.not_mem_nil, or_false]
  omega

theorem monthsL_getElem? {m : Nat} (h1 : 1 ≤ m) (h2 : m ≤ 12) :
    monthsL[m - 1]? = some m := by
  interval_cases m <;> rfl

/-- The entry of the hours pivot, read off the constructed row. -/
theorem lookupPivot_map {f : Nat → List Nat} {idx : List Nat} {y m : Nat}
    (hy : y ∈ idx) :
    lookupPivot (idx.map (fun a => (a, f a))) y m = (f y)[m - 1]? := by
  unfold lookupPivot
  rw [find?_map_pair hy, Option.some_bind]

/-- The per-month count inside `pivot_hours` is the spec-side hour count:
filtering the threshold first and the (year, month) bucket second is the
same as one conjunctive filter. -/
theorem hourCount_eq (df : List Obs) (y m : Nat) :
    ((exceedRows df).filter (fun o => o.jahr == y && o.monat == m)).length =
      hourExceedCount df y m := by
  unfold exceedRows hourExceedCount
  rw [List.filter_filter]

/-- The per-month count inside `pivot_days` is the spec-side day count:
deduplicating the day keys first and filtering the (year, month) bucket
second is the same as filtering the bucket first and deduplicating the
days of the bucket. -/
theorem dayCount_eq (df : List Obs) (y m : Nat) :
    ((days_frame df).filter (fun d => d.year == y && d.month == m)).length =
      dayExceedCount df y m := by
  unfold days_frame dayExceedCount
  rw [← uniqueFirst_filter, List.filter_map]
  rfl

/-- Core lemma for the Hour variant: any present row's month entry is the
count of threshold-meeting observations of that (year, month). -/
theorem pivot_hours_lookup (df : List Obs) (y m : Nat) (h1 : 1 ≤ m)
    (h2 : m ≤ 12) (hy : y ∈ pivotIndexHours df) :
    lookupPivot (pivot_hours df) y m = some (hourExceedCount df y m) := by
  unfold pivot_hours
  rw [lookupPivot_map hy, List.getElem?_map, monthsL_getElem? h1 h2]
  simp only [Option.map_some']
  exact congrArg some (hourCount_eq df y m)

/-- Core lemma for the Day variant: any present row's month entry is the
number of distinct exceedance days of that (year, month). -/
theorem pivot_days_lookup (df : List Obs) (y m : Nat) (h1 : 1 ≤ m)
    (h2 : m ≤ 12) (hy : y ∈ pivotIndexDays df) :
    lookupPivot (pivot_days df) y m = some (dayExceedCount df y m) := by
  unfold pivot_days
  rw [lookupPivot_map hy, List.getElem?_map, monthsL_getElem? h1 h2]
  simp only [Option.map_some']
  exact congrArg some (dayCount_eq df y m)

/-! ### Claim theorems -/

/-- Claim C1: for every parsed time series and every (year, month) whose
year has a row in the Hour pivot, the entry equals the number of
observations of that year and month with value ≥ 27; in particular a
month of a present row with no qualifying observations holds 0. -/
theorem hourPivot_entry_eq_count (df : List Obs) (y m : Nat) (h1 : 1 ≤ m)
    (h2 : m ≤ 12) (hy : y ∈ pivotIndexHours df) :
    lookupPivot (pivot_hours df) y m = some (hourExceedCount df y m) ∧
      (hourExceedCount df y m = 0 →
        lookupPivot (pivot_hours df) y m = some 0) := by
  refine ⟨pivot_hours_lookup df y m h1 h2 hy, fun h0 => ?_⟩
  rw [pivot_hours_lookup df y m h1 h2 hy, h0]

/-- Witness for C1 at the concrete scenario input: the (2023, Jan) entry
of the Hour pivot is the hour-exceedance count, namely 1. -/
theorem hourPivot_entry_eq_count_witness :
    (1 ≤ 1 ∧ 1 ≤ 12 ∧ 2023 ∈ pivotIndexHours demoObs) ∧
      lookupPivot (pivot_hours demoObs) 2023 1 =
        some (hourExceedCount demoObs 2023 1) ∧
      hourExceedCount demoObs 2023 1 = 1 :=
  ⟨⟨by decide, by decide, by decide⟩,
    (hourPivot_entry_eq_count demoObs 2023 1 (by decide) (by decide)
      (by decide)).1,
    by decide⟩

/-- Claim C2: for every parsed time series and every (year, month) whose
year has a row in the Day pivot, the entry equals the number of distinct
calendar days of that year and month having at least one observation with
value ≥ 27; a month of a present row with no qualifying day holds 0. -/
theorem dayPivot_entry_eq_distinct_days (df : List Obs) (y m : Nat)
    (h1 : 1 ≤ m) (h2 : m ≤ 12) (hy : y ∈ pivotIndexDays df) :
    lookupPivot (pivot_days df) y m = some (dayExceedCount df y m) ∧
      (dayExceedCount df y m = 0 →
        lookupPivot (pivot_days df) y m = some 0) := by
  refine ⟨pivot_days_lookup df y m h1 h2 hy, fun h0 => ?_⟩
  rw [pivot_days_lookup df y m h1 h2 hy, h0]

/-- Witness for C2 at two same-day observations both ≥ 27: the (2023, Jul)
entry of the Day pivot is the distinct-day count, namely 1 (not 2). -/
theorem dayPivot_entry_eq_distinct_days_witness :
    (1 ≤ 7 ∧ 7 ≤ 12 ∧ 2023 ∈ pivotIndexDays twoSameDay) ∧
      lookupPivot (pivot_days twoSameDay) 2023 7 =
        some (dayExceedCount twoSameDay 2023 7) ∧
      dayExceedCount twoSameDay 2023 7 = 1 :=
  ⟨⟨by decide, by decide, by decide⟩,
    (dayPivot_entry_eq_distinct_days twoSameDay 2023 7 (by decide)
      (by decide) (by decide)).1,
    by decide⟩

/-- Claim C3 counterexample: the scenario's literal second timestamp
`2023010127` has hour 27, which `%Y%m%d%H` does not accept, so the
pipeline rejects the scenario input with the parse error naming that row
instead of producing the claimed tables. -/
theorem scenario_literal_rejected :
    parseTimestamp 2023010127 = none ∧
      process_data badRows = .error (malformedMsg 1 2023010127) :=
  ⟨rfl, rfl⟩

/-- Claim C3 amended: with the second timestamp's hour amended to a valid
hour of the same calendar day (`2023010123`), both timestamps parse under
the fixed `YYYYMMDDHH` pattern, the Hour pivot holds 1 at (2023, Jan), the
Day pivot holds 1 at (2023, Jan), the only detail sheet is `2023_Jan` with
exactly 2 data rows, and the only highlighted cell is the Temperature cell
of the second data row (worksheet row 3, column 3). -/
theorem scenario_amended :
    process_data demoRows = .ok demoObs ∧
      parseTimestamp 2023010100 = some ⟨2023, 1, 1, 0⟩ ∧
      parseTimestamp 2023010123 = some ⟨2023, 1, 1, 23⟩ ∧
      lookupPivot (pivot_hours demoObs) 2023 1 = some 1 ∧
      lookupPivot (pivot_days demoObs) 2023 1 = some 1 ∧
      (save_monthly_data demoObs).map (fun ks => ks.2.name) = ["2023_Jan"] ∧
      (save_monthly_data demoObs).map (fun ks => ks.2.rows.length) = [2] ∧
      workbookHighlights demoObs = [("2023_Jan", 3, 3)] :=
  ⟨rfl, rfl, rfl, by decide, by decide, by decide, by decide, by decide⟩

/-- Projecting the year component back out of constructed pivot rows. -/
theorem map_fst_pair {α β : Type} (f : α → β) (l : List α) :
    (l.map (fun a => (a, f a))).map Prod.fst = l := by
  induction l with
  | nil => rfl
  | cons x xs ih => simp only [List.map_cons, ih]

/-- The Hour pivot index is strictly ascending. -/
theorem sortedLt_pivotIndexHours (df : List Obs) :
    List.Sorted (· < ·) (pivotIndexHours df) :=
  sortedLt_sortNat (nodup_uniqueFirst _)

/-- The Day pivot index is strictly ascending. -/
theorem sortedLt_pivotIndexDays (df : List Obs) :
    List.Sorted (· < ·) (pivotIndexDays df) :=
  sortedLt_sortNat (nodup_uniqueFirst _)

/-- Claim C4: for every input, both pivot tables carry the twelve fixed
month labels, every present row has exactly twelve month entries, rows are
ordered by strictly ascending year, and a month with no qualifying data in
a present row holds the fill value 0. -/
theorem pivots_shape (df : List Obs) :
    monthNamesL = ["Jan", "Feb", "Mrz", "Apr", "Mai", "Jun",
      "Jul", "Aug", "Sep", "Okt", "Nov", "Dez"] ∧
    (∀ r ∈ pivot_hours df, r.2.length = 12) ∧
    (∀ r ∈ pivot_days df, r.2.length = 12) ∧
    List.Sorted (· < ·) ((pivot_hours df).map Prod.fst) ∧
    List.Sorted (· < ·) ((pivot_days df).map Prod.fst) ∧
    (∀ y m, 1 ≤ m → m ≤ 12 → y ∈ pivotIndexHours df →
      hourExceedCount df y m = 0 →
      lookupPivot (pivot_hours df) y m = some 0) ∧
    (∀ y m, 1 ≤ m → m ≤ 12 → y ∈ pivotIndexDays df →
      dayExceedCount df y m = 0 →
      lookupPivot (pivot_days df) y m = some 0) := by
  refine ⟨rfl, ?_, ?_, ?_, ?_, ?_, ?_⟩
  · intro r hr
    rcases List.mem_map.1 hr with ⟨y, _, rfl⟩
    simp [monthsL]
  · intro r hr
    rcases List.mem_map.1 hr with ⟨y, _, rfl⟩
    simp [monthsL]
  · unfold pivot_hours
    rw [map_fst_pair]
    exact sortedLt_pivotIndexHours df
  · unfold pivot_days
    rw [map_fst_pair]
    exact sortedLt_pivotIndexDays df
  · intro y m h1 h2 hy h0
    rw [pivot_hours_lookup df y m h1 h2 hy, h0]
  · intro y m h1 h2 hy h0
    rw [pivot_days_lookup df y m h1 h2 hy, h0]

/-- Witness for C4 at the scenario input: (2023, Feb) has no qualifying
observation, the year row 2023 is present, and the Hour entry is the fill
value 0. -/
theorem pivots_shape_witness :
    (2023 ∈ pivotIndexHours demoObs ∧ hourExceedCount demoObs 2023 2 = 0) ∧
      lookupPivot (pivot_hours demoObs) 2023 2 = some 0 :=
  ⟨⟨by decide, by decide⟩,
    (pivots_shape demoObs).2.2.2.2.2.1 2023 2 (by decide) (by decide)
      (by decide) (by decide)⟩

/-- What one inner-loop step can produce: exactly the keyed record of its
(year, month), and only when the period is nonempty. -/
theorem sheetFor_eq_some {df : List Obs} {y m : Nat}
    {x : (Nat × Nat) × MonthSheet} :
    sheetFor df y m = some x ↔
      periodRows df y m ≠ [] ∧
        x = ((y, m), ⟨sheetName y m, (periodRows df y m).map mkSheetRow⟩) := by
  unfold sheetFor
  by_cases he : (periodRows df y m).isEmpty
  · rw [if_pos he]
    constructor
    · intro h
      cases h
    · rintro ⟨hne, _⟩
      exact absurd (List.isEmpty_iff.1 he) hne
  · rw [if_neg he]
    constructor
    · intro h
      injection h with h
      subst h
      refine ⟨fun hnil => he ?_, rfl⟩
      rw [hnil]
      rfl
    · rintro ⟨_, rfl⟩
      rfl

/-- Membership characterization of the written monthly sheets. -/
theorem mem_save_monthly_data {df : List Obs} {x : (Nat × Nat) × MonthSheet} :
    x ∈ save_monthly_data df ↔
      x.1.1 ∈ uniqueFirst (df.map Obs.jahr) ∧ x.1.2 ∈ monthsL ∧
        periodRows df x.1.1 x.1.2 ≠ [] ∧
        x = ((x.1.1, x.1.2), ⟨sheetName x.1.1 x.1.2,
          (periodRows df x.1.1 x.1.2).map mkSheetRow⟩) := by
  unfold save_monthly_data
  rw [List.mem_flatMap]
  constructor
  · rintro ⟨y, hy, hx⟩
    rw [List.mem_filterMap] at hx
    rcases hx with ⟨m, hm, hsf⟩
    rcases sheetFor_eq_some.1 hsf with ⟨hne, rfl⟩
    exact ⟨hy, hm, hne, rfl⟩
  · rintro ⟨hy, hm, hne, hx⟩
    refine ⟨x.1.1, hy, ?_⟩
    rw [List.mem_filterMap]
    exact ⟨x.1.2, hm, sheetFor_eq_some.2 ⟨hne, hx⟩⟩

/-- Claim C5: a monthly detail sheet exists iff its (year, month) has at
least one observation; it is named `{year}_{MonthAbbrev}`, its columns
are Datum (formatted `DD.MM.YYYY` by `formatDate` inside `mkSheetRow`),
Uhrzeit and Temperatur in that order, its data-row count equals the
observation count of the period, and its rows are the period rows in the
original input order (`periodRows` is an order-preserving sublist of the
input). -/
theorem monthly_sheet_spec (df : List Obs) (y m : Nat) (h1 : 1 ≤ m)
    (h2 : m ≤ 12) :
    (((y, m), (⟨sheetName y m, (periodRows df y m).map mkSheetRow⟩ :
        MonthSheet)) ∈ save_monthly_data df ↔ periodRows df y m ≠ []) ∧
      (∀ e ∈ save_monthly_data df, ∃ y2 m2, 1 ≤ m2 ∧ m2 ≤ 12 ∧
        periodRows df y2 m2 ≠ [] ∧
        e = ((y2, m2), ⟨sheetName y2 m2,
          (periodRows df y2 m2).map mkSheetRow⟩)) ∧
      monthlyHeader = ["Datum", "Uhrzeit", "Temperatur"] ∧
      ((periodRows df y m).map mkSheetRow).length =
        (periodRows df y m).length ∧
      (periodRows df y m).Sublist df := by
  refine ⟨⟨fun hmem => (mem_save_monthly_data.1 hmem).2.2.1, fun hne => ?_⟩,
    fun e he => ?_, rfl, List.length_map _ _, List.filter_sublist _⟩
  · apply mem_save_monthly_data.2
    refine ⟨?_, mem_monthsL.2 ⟨h1, h2⟩, hne, rfl⟩
    rcases List.exists_mem_of_ne_nil _ hne with ⟨o, ho⟩
    rcases List.mem_filter.1 ho with ⟨hodf, hp⟩
    rw [Bool.and_eq_true] at hp
    have hoy : o.jahr = y := by simpa using hp.1
    exact mem_uniqueFirst.2 (hoy ▸ List.mem_map_of_mem Obs.jahr hodf)
  · rcases mem_save_monthly_data.1 he with ⟨hy, hm, hne, hx⟩
    rcases mem_monthsL.1 hm with ⟨hm1, hm2⟩
    exact ⟨e.1.1, e.1.2, hm1, hm2, hne, hx⟩

/-- Witness for C5 at the scenario input: (2023, Jan) is populated, and
the sheet `2023_Jan` with the period rows is among the written sheets. -/
theorem monthly_sheet_spec_witness :
    periodRows demoObs 2023 1 ≠ [] ∧
      ((2023, 1), (⟨sheetName 2023 1,
        (periodRows demoObs 2023 1).map mkSheetRow⟩ : MonthSheet)) ∈
        save_monthly_data demoObs :=
  ⟨by decide,
    (monthly_sheet_spec demoObs 2023 1 (by decide) (by decide)).1.mpr
      (by decide)⟩

/-- The truthiness-conjoined test of line 89 is equivalent to the plain
threshold test: a value ≥ 27 is nonzero, so Python truthiness never
masks a qualifying temperature. -/
theorem highlightTest_iff (r : SheetRow) :
    highlightTest r = true ↔ (27 : ℚ) ≤ r.temperatur := by
  unfold highlightTest
  rw [Bool.and_eq_true, bne_iff_ne, decide_eq_true_eq]
  constructor
  · exact fun h => h.2
  · intro h
    refine ⟨fun h0 => ?_, h⟩
    rw [h0] at h
    norm_num at h

/-- String append acts as append on the underlying character lists. -/
theorem string_data_append (a b : String) : (a ++ b).data = a.data ++ b.data := by
  rcases a with ⟨d1⟩
  rcases b with ⟨d2⟩
  rfl

/-- Every detail sheet name contains an underscore (from
`f"{year}_{month_name}"`). -/
theorem underscore_mem_sheetName (y m : Nat) : '_' ∈ (sheetName y m).data := by
  unfold sheetName
  rw [string_data_append, string_data_append]
  exact List.mem_append.2 (.inl (List.mem_append.2 (.inr (by decide))))

/-- No detail sheet is the hours summary sheet. -/
theorem sheetName_ne_summaryHours (y m : Nat) : sheetName y m ≠ summaryHours := by
  intro h
  have hu := underscore_mem_sheetName y m
  rw [h] at hu
  exact absurd hu (by decide)

/-- No detail sheet is the days summary sheet. -/
theorem sheetName_ne_summaryDays (y m : Nat) : sheetName y m ≠ summaryDays := by
  intro h
  have hu := underscore_mem_sheetName y m
  rw [h] at hu
  exact absurd hu (by decide)

/-- Membership characterization of one sheet's highlighted cells. -/
theorem mem_sheetHighlights {s : MonthSheet} {nm : String} {r c : Nat} :
    (nm, r, c) ∈ sheetHighlights s ↔
      nm = s.name ∧ c = 3 ∧ ∃ i row, s.rows[i]? = some row ∧ r = i + 2 ∧
        (27 : ℚ) ≤ row.temperatur := by
  unfold sheetHighlights
  rw [List.mem_filterMap]
  constructor
  · rintro ⟨⟨i, row⟩, hmem, hsome⟩
    by_cases ht : highlightTest row
    · rw [if_pos ht] at hsome
      injection hsome with h
      obtain ⟨h1, h2, h3⟩ : s.name = nm ∧ i + 2 = r ∧ 3 = c := by
        simpa [Prod.ext_iff] using h
      exact ⟨h1.symm, h3.symm, i, row, List.mk_mem_enum_iff_getElem?.1 hmem,
        h2.symm, (highlightTest_iff row).1 ht⟩
    · rw [if_neg ht] at hsome
      cases hsome
  · rintro ⟨rfl, rfl, i, row, hget, rfl, hge⟩
    refine ⟨(i, row), List.mk_mem_enum_iff_getElem?.2 hget, ?_⟩
    rw [if_pos ((highlightTest_iff row).2 hge)]

/-- Claim C6: a cell carries the highlight style iff it is the Temperature
cell (column 3) of a data row of a monthly detail sheet whose value is
≥ 27 (data row `i`, 0-based, sits in worksheet row `i + 2`); no cell of
either summary sheet is ever highlighted. -/
theorem highlight_characterization (df : List Obs) :
    (∀ nm r c, (nm, r, c) ∈ workbookHighlights df ↔
      ∃ e ∈ save_monthly_data df, nm = e.2.name ∧ c = 3 ∧
        ∃ i row, e.2.rows[i]? = some row ∧ r = i + 2 ∧
          (27 : ℚ) ≤ row.temperatur) ∧
    (∀ r c, (summaryHours, r, c) ∉ workbookHighlights df) ∧
    (∀ r c, (summaryDays, r, c) ∉ workbookHighlights df) := by
  have hmain : ∀ nm r c, (nm, r, c) ∈ workbookHighlights df ↔
      ∃ e ∈ save_monthly_data df, nm = e.2.name ∧ c = 3 ∧
        ∃ i row, e.2.rows[i]? = some row ∧ r = i + 2 ∧
          (27 : ℚ) ≤ row.temperatur := by
    intro nm r c
    unfold workbookHighlights
    rw [List.mem_flatMap]
    constructor
    · rintro ⟨e, he, hx⟩
      rcases mem_sheetHighlights.1 hx with ⟨h1, h2, hrest⟩
      exact ⟨e, he, h1, h2, hrest⟩
    · rintro ⟨e, he, h1, h2, hrest⟩
      exact ⟨e, he, mem_sheetHighlights.2 ⟨h1, h2, hrest⟩⟩
  refine ⟨hmain, ?_, ?_⟩
  · intro r c hmem
    rcases (hmain _ _ _).1 hmem with ⟨e, he, hname, _⟩
    have hx := (mem_save_monthly_data.1 he).2.2.2
    apply sheetName_ne_summaryHours e.1.1 e.1.2
    rw [show e.2.name = sheetName e.1.1 e.1.2 by rw [hx]] at hname
    exact hname.symm
  · intro r c hmem
    rcases (hmain _ _ _).1 hmem with ⟨e, he, hname, _⟩
    have hx := (mem_save_monthly_data.1 he).2.2.2
    apply sheetName_ne_summaryDays e.1.1 e.1.2
    rw [show e.2.name = sheetName e.1.1 e.1.2 by rw [hx]] at hname
    exact hname.symm

/-- Witness for C6 at the scenario input: the Temperature cell of the
second data row of sheet `2023_Jan` (worksheet row 3, column 3) is
highlighted. -/
theorem highlight_characterization_witness :
    ("2023_Jan", 3, 3) ∈ workbookHighlights demoObs :=
  ((highlight_characterization demoObs).1 "2023_Jan" 3 3).mpr
    ⟨((2023, 1), ⟨sheetName 2023 1, (periodRows demoObs 2023 1).map mkSheetRow⟩),
      by decide, by decide, rfl, 1, mkSheetRow ⟨⟨2023, 1, 1, 23⟩, 27⟩,
      by decide, rfl, by decide⟩

/-- On timestamps within the field bounds, the `YYYYMMDDHH` key order
bounds the year order. -/
theorem jahr_mono {s t : Timestamp} (hs : ValidTs s) (ht : ValidTs t)
    (h : tsNum s ≤ tsNum t) : s.year ≤ t.year := by
  rcases hs with ⟨hs1, hs2, hs3, hs4, hs5⟩
  rcases ht with ⟨ht1, ht2, ht3, ht4, ht5⟩
  unfold tsNum at h
  omega

/-- The fixed month axis is strictly increasing. -/
theorem monthsL_pairwise : List.Pairwise (· < ·) monthsL := by decide

/-- The keys of the sheets written for a strictly ascending year list are
lexicographically strictly ascending: the sheet loop visits months in
ascending order inside each year, and years in list order. -/
theorem pairwise_keys (df : List Obs) :
    ∀ ys : List Nat, List.Pairwise (· < ·) ys →
      List.Pairwise pairLt
        ((ys.flatMap (fun y => monthsL.filterMap (sheetFor df y))).map
          Prod.fst) := by
  intro ys hys
  induction ys with
  | nil => simp
  | cons y ys ih =>
    rcases List.pairwise_cons.1 hys with ⟨hy, hys2⟩
    rw [List.flatMap_cons, List.map_append]
    refine List.pairwise_append.2 ⟨?_, ih hys2, ?_⟩
    · rw [List.map_filterMap]
      refine List.Pairwise.filterMap _ ?_ monthsL_pairwise
      intro m1 m2 hlt b hb b2 hb2
      rcases Option.map_eq_some'.1 (Option.mem_def.1 hb) with ⟨x, hx, rfl⟩
      rcases Option.map_eq_some'.1 (Option.mem_def.1 hb2) with ⟨x2, hx2, rfl⟩
      rcases sheetFor_eq_some.1 hx with ⟨_, rfl⟩
      rcases sheetFor_eq_some.1 hx2 with ⟨_, rfl⟩
      exact Or.inr ⟨rfl, hlt⟩
    · intro a ha b hb
      rcases List.mem_map.1 ha with ⟨x, hx, rfl⟩
      rcases List.mem_filterMap.1 hx with ⟨m, _, hsf⟩
      rcases sheetFor_eq_some.1 hsf with ⟨_, rfl⟩
      rcases List.mem_map.1 hb with ⟨x2, hx2, rfl⟩
      rcases List.mem_flatMap.1 hx2 with ⟨y2, hy2, hx3⟩
      rcases List.mem_filterMap.1 hx3 with ⟨m2, _, hsf2⟩
      rcases sheetFor_eq_some.1 hsf2 with ⟨_, rfl⟩
      exact Or.inl (hy y2 hy2)

/-- For a time series ordered by timestamp with bounded (parsed)
timestamps, the first-appearance year list is strictly ascending. -/
theorem sortedYears_of_sorted (df : List Obs)
    (hv : ∀ o ∈ df, ValidTs o.zeitstempel)
    (hs : List.Pairwise
      (fun a b => tsNum a.zeitstempel ≤ tsNum b.zeitstempel) df) :
    List.Pairwise (· < ·) (uniqueFirst (df.map Obs.jahr)) := by
  have hle : List.Pairwise (· ≤ ·) (df.map Obs.jahr) := by
    rw [List.pairwise_map]
    refine List.Pairwise.imp_of_mem ?_ hs
    intro a b ha hb hab
    exact jahr_mono (hv a ha) (hv b hb) hab
  have hle2 : List.Pairwise (· ≤ ·) (uniqueFirst (df.map Obs.jahr)) :=
    hle.sublist (uniqueFirst_sublist _)
  have hnd : List.Pairwise (· ≠ ·) (uniqueFirst (df.map Obs.jahr)) :=
    nodup_uniqueFirst _
  exact (hle2.and hnd).imp (fun h => lt_of_le_of_ne h.1 h.2)

/-- Claim C7: for every run on a time series ordered by timestamp (the
TimeSeries invariant of the data model, with parsed timestamps), the
sheets are created in the order: hours summary, days summary, then the
monthly detail sheets in strictly ascending (year, month) order. -/
theorem sheet_creation_order (df : List Obs)
    (hv : ∀ o ∈ df, ValidTs o.zeitstempel)
    (hs : List.Pairwise
      (fun a b => tsNum a.zeitstempel ≤ tsNum b.zeitstempel) df) :
    sheetOrder df = summaryHours :: summaryDays ::
        (save_monthly_data df).map (fun ks => ks.2.name) ∧
      List.Pairwise pairLt ((save_monthly_data df).map Prod.fst) := by
  refine ⟨rfl, ?_⟩
  unfold save_monthly_data
  exact pairwise_keys df _ (sortedYears_of_sorted df hv hs)

/-- Witness for C7 at the scenario input, which is ordered by timestamp:
the run's sheet order is the two summaries followed by the detail
sheets. -/
theorem sheet_creation_order_witness :
    ((∀ o ∈ demoObs, ValidTs o.zeitstempel) ∧
        List.Pairwise
          (fun a b => tsNum a.zeitstempel ≤ tsNum b.zeitstempel) demoObs) ∧
      sheetOrder demoObs = summaryHours :: summaryDays ::
        (save_monthly_data demoObs).map (fun ks => ks.2.name) :=
  ⟨⟨by decide, by decide⟩,
    (sheet_creation_order demoObs (by decide) (by decide)).1⟩

/-- Folding `max` into a combined initial value splits into a `max` with
the fold over the remaining initial value. -/
theorem foldr_max_pull (l : List Nat) (b c : Nat) :
    l.foldr max (max b c) = max b (l.foldr max c) := by
  induction l with
  | nil => rfl
  | cons x xs ih =>
    rw [List.foldr_cons, List.foldr_cons, ih, Nat.max_left_comm]

/-- The left `max` fold from 0 combined with the header bound equals a
right `max` fold into the combined initial value. -/
theorem foldl_max_eq_foldr (l : List Nat) (a h : Nat) :
    max (l.foldl max a) h = l.foldr max (max a h) := by
  induction l generalizing a with
  | nil => rfl
  | cons x xs ih =>
    rw [List.foldl_cons, List.foldr_cons, ih, foldr_max_pull, foldr_max_pull]
    omega

/-- The width computed by line 84 is the spec-side width. -/
theorem widthOfCol_eq_spec (s : MonthSheet) (c : Nat) :
    widthOfCol s c = specColWidth s c := by
  unfold widthOfCol specColWidth maxNat
  rw [foldl_max_eq_foldr, Nat.zero_max]

/-- Claim C8 counterexample: at the scenario input both summary sheets
are among the run's sheets, yet the run assigns column widths only to
the detail sheets; neither summary sheet receives a width entry. -/
theorem summary_sheets_not_sized :
    summaryHours ∈ sheetOrder demoObs ∧ summaryDays ∈ sheetOrder demoObs ∧
      summaryHours ∉ (columnWidths demoObs).map Prod.fst ∧
      summaryDays ∉ (columnWidths demoObs).map Prod.fst := by decide

/-- Claim C8 amended: column sizing is applied exactly to the monthly
detail sheets, one width entry per written sheet in sheet order, each
column's width being the maximum of the longest stringified cell value
of the column and the header length, plus 2, computed per sheet; the
summary sheets get no explicit widths. -/
theorem column_widths_spec (df : List Obs) :
    (columnWidths df).map Prod.fst =
        (save_monthly_data df).map (fun ks => ks.2.name) ∧
      (∀ e ∈ save_monthly_data df,
        (e.2.name,
          [specColWidth e.2 0, specColWidth e.2 1, specColWidth e.2 2]) ∈
          columnWidths df) ∧
      (∀ w ∈ columnWidths df, ∃ e ∈ save_monthly_data df,
        w = (e.2.name,
          [specColWidth e.2 0, specColWidth e.2 1, specColWidth e.2 2])) := by
  have hw : ∀ s : MonthSheet, (List.range 3).map (widthOfCol s) =
      [specColWidth s 0, specColWidth s 1, specColWidth s 2] := by
    intro s
    rw [show List.range 3 = [0, 1, 2] from rfl]
    simp [widthOfCol_eq_spec]
  refine ⟨?_, ?_, ?_⟩
  · unfold columnWidths
    rw [List.map_map]
    rfl
  · intro e he
    unfold columnWidths
    rw [← hw e.2]
    exact List.mem_map_of_mem _ he
  · intro w hmem
    unfold columnWidths at hmem
    rcases List.mem_map.1 hmem with ⟨e, he, rfl⟩
    exact ⟨e, he, by rw [hw e.2]⟩

/-- Witness for the amended C8 at the scenario input: the width entry of
the sheet `2023_Jan` follows the max-plus-2 rule. -/
theorem column_widths_spec_witness :
    (((2023, 1), (⟨sheetName 2023 1,
        (periodRows demoObs 2023 1).map mkSheetRow⟩ : MonthSheet)) ∈
      save_monthly_data demoObs) ∧
      ((sheetName 2023 1 : String),
        [specColWidth ⟨sheetName 2023 1,
            (periodRows demoObs 2023 1).map mkSheetRow⟩ 0,
          specColWidth ⟨sheetName 2023 1,
            (periodRows demoObs 2023 1).map mkSheetRow⟩ 1,
          specColWidth ⟨sheetName 2023 1,
            (periodRows demoObs 2023 1).map mkSheetRow⟩ 2]) ∈
        columnWidths demoObs :=
  ⟨by decide,
    (column_widths_spec demoObs).2.1
      ((2023, 1), ⟨sheetName 2023 1,
        (periodRows demoObs 2023 1).map mkSheetRow⟩) (by decide)⟩

/-- Claim C9 counterexample: a run whose chart rendering fails (an
exception inside the writer block, after the sheets are written) is a
failed run, yet it persists a workbook at the fixed path: the
`with pd.ExcelWriter` exit saves the partially assembled file. -/
theorem failed_run_persists_partial :
    (runPipeline (some demoRows) false).succeeded = false ∧
      (runPipeline (some demoRows) false).fileOnDisk =
        some ⟨sheetOrder demoObs, false⟩ := by decide

/-- Claim C9 amended: every failing run reports an error and exposes
nothing for retrieval; a retrieval or parse failure persists nothing; but
a failure inside the writer block (rendering) leaves the partial workbook
(all sheets, no images) persisted at the fixed path. -/
theorem failure_handling (download : Option (List RawRow)) (renderOk : Bool) :
    ((runPipeline download renderOk).succeeded = false →
      (runPipeline download renderOk).errorShown = true ∧
        (runPipeline download renderOk).exposed = none) ∧
    (download = none → (runPipeline download renderOk).fileOnDisk = none) ∧
    (∀ rows e, download = some rows → process_data rows = .error e →
      (runPipeline download renderOk).fileOnDisk = none) ∧
    (∀ rows df, download = some rows → process_data rows = .ok df →
      renderOk = false →
      (runPipeline download renderOk).succeeded = false ∧
        (runPipeline download renderOk).fileOnDisk =
          some ⟨sheetOrder df, false⟩ ∧
        (runPipeline download renderOk).exposed = none ∧
        (runPipeline download renderOk).errorShown = true) := by
  cases download with
  | none =>
    refine ⟨fun _ => by simp [runPipeline], fun _ => by simp [runPipeline],
      ?_, ?_⟩
    · intro rows e h
      exact absurd h.symm (Option.some_ne_none rows)
    · intro rows df h
      exact absurd h.symm (Option.some_ne_none rows)
  | some rows =>
    cases hpd : process_data rows with
    | error e =>
      refine ⟨fun _ => by simp [runPipeline, hpd],
        fun h => absurd h (Option.some_ne_none rows), ?_, ?_⟩
      · intro rows2 e2 h _
        injection h with h
        subst h
        simp [runPipeline, hpd]
      · intro rows2 df2 h hq
        injection h with h
        subst h
        rw [hpd] at hq
        cases hq
    | ok df =>
      refine ⟨?_, fun h => absurd h (Option.some_ne_none rows), ?_, ?_⟩
      · intro hfail
        cases renderOk
        · simp [runPipeline, hpd]
        · simp [runPipeline, hpd] at hfail
      · intro rows2 e2 h hq
        injection h with h
        subst h
        rw [hpd] at hq
        cases hq
      · intro rows2 df2 h hq hr
        injection h with h
        subst h
        rw [hpd] at hq
        injection hq with hq
        subst hq
        subst hr
        simp [runPipeline, hpd]

/-- Witness for the amended C9: the run on the spec scenario's literal
input fails at parsing, before the writer block, and persists nothing. -/
theorem failure_handling_witness :
    process_data badRows = .error (malformedMsg 1 2023010127) ∧
      (runPipeline (some badRows) true).fileOnDisk = none :=
  ⟨rfl,
    (failure_handling (some badRows) true).2.2.1 badRows
      (malformedMsg 1 2023010127) rfl rfl⟩

/-- If every row's timestamp parses, the row conversion succeeds, for any
starting position. -/
theorem processFrom_ok (k : Nat) (rows : List RawRow)
    (h : ∀ r ∈ rows, (parseTimestamp r.mess_datum).isSome = true) :
    ∃ l, processFrom k rows = .ok l := by
  induction rows generalizing k with
  | nil => exact ⟨[], rfl⟩
  | cons r rs ih =>
    have hr := h r (List.mem_cons_self r rs)
    rcases Option.isSome_iff_exists.1 hr with ⟨t, ht⟩
    rcases ih (k + 1) (fun x hx => h x (List.mem_cons_of_mem _ hx)) with
      ⟨l, hl⟩
    refine ⟨⟨t, r.tt_tu⟩ :: l, ?_⟩
    simp only [processFrom, ht, hl]

/-- If the first unparseable row sits at position `i`, the row conversion
fails with exactly the error naming position `k + i` and that row's
timestamp value. -/
theorem processFrom_error (k : Nat) (rows : List RawRow) :
    ∀ i (hi : i < rows.length),
      parseTimestamp (rows.get ⟨i, hi⟩).mess_datum = none →
      (∀ j (hj : j < i),
        (parseTimestamp
          (rows.get ⟨j, Nat.lt_trans hj hi⟩).mess_datum).isSome = true) →
      processFrom k rows =
        .error (malformedMsg (k + i) (rows.get ⟨i, hi⟩).mess_datum) := by
  induction rows generalizing k with
  | nil =>
    intro i hi
    exact absurd hi (Nat.not_lt_zero i)
  | cons r rs ih =>
    intro i hi hbad hgood
    cases i with
    | zero =>
      simp only [processFrom, List.get] at hbad ⊢
      rw [hbad]
      rfl
    | succ i2 =>
      have hr : (parseTimestamp r.mess_datum).isSome = true :=
        hgood 0 (Nat.succ_pos i2)
      rcases Option.isSome_iff_exists.1 hr with ⟨t, ht⟩
      have hi2 : i2 < rs.length := Nat.lt_of_succ_lt_succ hi
      have hrec := ih (k + 1) i2 hi2 hbad
        (fun j hj => hgood (j + 1) (Nat.succ_lt_succ hj))
      simp only [processFrom, List.get, ht, hrec]
      rw [show k + 1 + i2 = k + (i2 + 1) by omega]

/-- Claim C10: record parsing succeeds iff every row's timestamp parses
under the fixed pattern; when the first failing row sits at position `i`,
the parse fails with the error naming that row's value and position, and
such a run fails with the error reported. -/
theorem parse_error_behaviour (rows : List RawRow) :
    ((∀ r ∈ rows, (parseTimestamp r.mess_datum).isSome = true) →
      ∃ l, process_data rows = .ok l) ∧
    (∀ i (hi : i < rows.length),
      parseTimestamp (rows.get ⟨i, hi⟩).mess_datum = none →
      (∀ j (hj : j < i),
        (parseTimestamp
          (rows.get ⟨j, Nat.lt_trans hj hi⟩).mess_datum).isSome = true) →
      process_data rows =
        .error (malformedMsg i (rows.get ⟨i, hi⟩).mess_datum)) ∧
    (∀ e renderOk, process_data rows = .error e →
      (runPipeline (some rows) renderOk).succeeded = false ∧
        (runPipeline (some rows) renderOk).errorShown = true) := by
  refine ⟨processFrom_ok 0 rows, ?_, ?_⟩
  · intro i hi hbad hgood
    have h := processFrom_error 0 rows i hi hbad hgood
    rw [Nat.zero_add] at h
    exact h
  · intro e renderOk hpd
    simp [runPipeline, hpd]

/-- Witness for C10 at the spec scenario's literal input: row 1 carries
the unparseable timestamp `2023010127` and parsing fails with exactly the
error naming it. -/
theorem parse_error_behaviour_witness :
    parseTimestamp (badRows.get ⟨1, by decide⟩).mess_datum = none ∧
      process_data badRows =
        .error (malformedMsg 1 (badRows.get ⟨1, by decide⟩).mess_datum) :=
  ⟨by decide,
    (parse_error_behaviour badRows).2.1 1 (by decide) (by decide)
      (fun j hj => by
        have hj0 : j = 0 := by omega
        subst hj0
        show (parseTimestamp 2023010100).isSome = true
        decide)⟩

end Wetter
